import Mathlib

/-!
Shallow embedding of `src/autolog.py`, a call-logging decorator (`logged`,
implemented by the internal class `_logged`) together with a metaclass
(`autolog`) that applies the decorator to every callable member of a class.

The embedding models the slice of the Python 2 object model the module
manipulates: values with a printable representation (`repr`), objects that
may be callable, may have a `__name__`, carry an attribute dictionary,
may support the descriptor protocol (`__get__`), and may be `property`
objects with `fget`/`fset`/`fdel` accessors.  Side effects of a call are
modelled by threading an explicit state `σ`; writes to the log are a list
of strings threaded separately (the log sink is write-only, so no wrapped
callable can observe it).
-/

/-- The single-quote character, used by the Python `repr` of strings. -/
def sglq : String := String.singleton (Char.ofNat 39)

/-- Ground values of the embedded object model, with enough structure to
give each a printable representation (`repr` in Python). -/
inductive Value : Type where
  | none : Value
  | int : Int → Value
  | bool : Bool → Value
  | str : String → Value
  | obj : String → Value
deriving DecidableEq, Repr

/-- Python `repr` on ground values: `None`, numerals, `True`/`False`,
single-quoted strings, and an opaque printed form for other objects. -/
def reprValue : Value → String
  | .none => "None"
  | .int n => toString n
  | .bool b => if b then "True" else "False"
  | .str s => sglq ++ s ++ sglq
  | .obj r => r

/-- Exceptions of the embedded model. -/
inductive PyExn : Type where
  | attributeError : String → PyExn
  | typeError : String → PyExn
  | raised : Value → PyExn
deriving DecidableEq, Repr

/-- Which class an object reports through `__class__` (the metaclass only
ever tests `getattr(obj, '__class__', None) is property`). -/
inductive PyClass : Type where
  | property : PyClass
  | function : PyClass
  | other : PyClass
deriving DecidableEq, Repr

/-- An object of the embedded Python model, as observed by `autolog.py`:

* `isCallable` — the result of `callable(obj)`;
* `cls` — the class reported by `__class__`;
* `name` — `obj.__name__` when the object has one (`none` models
  `hasattr(obj, '__name__')` being false);
* `rep` — `repr(obj)`;
* `attrs` — the attribute dictionary reachable through
  `getattr`/`setattr`/`delattr` (in insertion order);
* `get` — the `__get__` method when the object is a descriptor
  (`none` models `hasattr(obj, '__get__')` being false); its arguments
  are the instance (`Option Value`, `none` for Python `None`) and the owner;
* `fget`/`fset`/`fdel` — the accessors when the object is a `property`;
* `impl` — the behaviour of calling the object on positional arguments,
  keyword arguments and a start state: an exception or a
  return value and a final state. -/
inductive Obj (σ : Type) : Type where
  | mk
      (isCallable : Bool)
      (cls : PyClass)
      (name : Option String)
      (rep : String)
      (attrs : List (String × Value))
      (get : Option (Option Value → Value → Obj σ))
      (fget : Option (Obj σ))
      (fset : Option (Obj σ))
      (fdel : Option (Obj σ))
      (impl : List Value → List (String × Value) → σ → Except PyExn (Value × σ))
      : Obj σ

/-- `callable(obj)`. -/
def Obj.isCallable {σ : Type} : Obj σ → Bool
  | .mk c _ _ _ _ _ _ _ _ _ => c

/-- `obj.__class__`. -/
def Obj.cls {σ : Type} : Obj σ → PyClass
  | .mk _ c _ _ _ _ _ _ _ _ => c

/-- `obj.__name__`, when present. -/
def Obj.name {σ : Type} : Obj σ → Option String
  | .mk _ _ n _ _ _ _ _ _ _ => n

/-- `repr(obj)`. -/
def Obj.rep {σ : Type} : Obj σ → String
  | .mk _ _ _ r _ _ _ _ _ _ => r

/-- The attribute dictionary of the object. -/
def Obj.attrs {σ : Type} : Obj σ → List (String × Value)
  | .mk _ _ _ _ a _ _ _ _ _ => a

/-- `obj.__get__`, when the object is a descriptor. -/
def Obj.get {σ : Type} : Obj σ → Option (Option Value → Value → Obj σ)
  | .mk _ _ _ _ _ g _ _ _ _ => g

/-- `obj.fget`, when the object is a property. -/
def Obj.fget {σ : Type} : Obj σ → Option (Obj σ)
  | .mk _ _ _ _ _ _ g _ _ _ => g

/-- `obj.fset`, when the object is a property. -/
def Obj.fset {σ : Type} : Obj σ → Option (Obj σ)
  | .mk _ _ _ _ _ _ _ s _ _ => s

/-- `obj.fdel`, when the object is a property. -/
def Obj.fdel {σ : Type} : Obj σ → Option (Obj σ)
  | .mk _ _ _ _ _ _ _ _ d _ => d

/-- Calling the object: `obj(*args, **kwargs)` from state `st`. -/
def Obj.impl {σ : Type} : Obj σ → List Value → List (String × Value) → σ → Except PyExn (Value × σ)
  | .mk _ _ _ _ _ _ _ _ _ f => f

/-- Attribute lookup in an attribute dictionary (`getattr` on the raw dict). -/
def attrLookup (attrs : List (String × Value)) (n : String) : Option Value :=
  match attrs with
  | [] => Option.none
  | (k, v) :: rest => if k = n then some v else attrLookup rest n

/-- Attribute update: overwrite an existing binding in place, else append. -/
def attrSet (attrs : List (String × Value)) (n : String) (v : Value) : List (String × Value) :=
  match attrs with
  | [] => [(n, v)]
  | (k, w) :: rest => if k = n then (k, v) :: rest else (k, w) :: attrSet rest n v

/-- Attribute deletion: remove the binding for `n`. -/
def attrDel (attrs : List (String × Value)) (n : String) : List (String × Value) :=
  match attrs with
  | [] => []
  | (k, w) :: rest => if k = n then rest else (k, w) :: attrDel rest n

/-- Rebuild an object with a new attribute dictionary (all other fields kept). -/
def Obj.withAttrs {σ : Type} : Obj σ → List (String × Value) → Obj σ
  | .mk c pc n r _ g fg fs fd f, a => .mk c pc n r a g fg fs fd f

/-- `setattr(obj, n, v)`. -/
def objSetattr {σ : Type} (o : Obj σ) (n : String) (v : Value) : Obj σ :=
  o.withAttrs (attrSet o.attrs n v)

/-- `delattr(obj, n)`: raises `AttributeError` when the attribute is absent. -/
def objDelattr {σ : Type} (o : Obj σ) (n : String) : Except PyExn (Obj σ) :=
  match attrLookup o.attrs n with
  | Option.none => .error (.attributeError n)
  | some _ => .ok (o.withAttrs (attrDel o.attrs n))

/-- `getattr(obj, n)`: raises `AttributeError` when the attribute is absent. -/
def objGetattr {σ : Type} (o : Obj σ) (n : String) : Except PyExn Value :=
  match attrLookup o.attrs n with
  | Option.none => .error (.attributeError n)
  | some v => .ok v

/-- A `_logged` wrapper instance: its two instance attributes, set by
`object.__setattr__` in `_logged.__init__`. -/
structure Logged (σ : Type) : Type where
  fnc : Obj σ
  rpr : String

/-- `_logged.__init__`: store the wrapped object as `_func`, and as `_repr`
the object's `__name__` when it has one different from the lambda name,
else its `repr`. -/
def loggedInit {σ : Type} (func : Obj σ) : Logged σ :=
  { fnc := func
    rpr :=
      match func.name with
      | some n => if n ≠ "<lambda>" then n else func.rep
      | Option.none => func.rep }

/-- The joined argument representation built by `_logged.__call__`:
`repr` of each positional argument, then `name=repr(value)` for each
keyword argument, comma-separated. -/
def argsRepr (args : List Value) (kwargs : List (String × Value)) : String :=
  String.intercalate ", "
    (args.map reprValue ++ kwargs.map (fun kv => kv.1 ++ "=" ++ reprValue kv.2))

/-- The `[call]` line written on entry. -/
def callLine (rpr : String) (args : List Value) (kwargs : List (String × Value)) : String :=
  "[call] " ++ rpr ++ "(" ++ argsRepr args kwargs ++ ")\n"

/-- The `[exit]` line written on normal return. -/
def exitLine (rpr : String) (args : List Value) (kwargs : List (String × Value))
    (retval : Value) : String :=
  "[exit] " ++ rpr ++ "(" ++ argsRepr args kwargs ++ ") = " ++ reprValue retval ++ "\n"

/-- `_logged.__call__`: write the `[call]` line, invoke the wrapped object,
and on normal return write the `[exit]` line and return the value; an
exception from the wrapped object propagates and no `[exit]` line is
written.  Returns the call outcome together with the log after the call. -/
def loggedCall {σ : Type} (self : Logged σ) (args : List Value)
    (kwargs : List (String × Value)) (log : List String) (st : σ) :
    Except PyExn (Value × σ) × List String :=
  let log2 := log ++ [callLine self.rpr args kwargs]
  match self.fnc.impl args kwargs st with
  | .error e => (.error e, log2)
  | .ok (retval, st2) =>
      (.ok (retval, st2), log2 ++ [exitLine self.rpr args kwargs retval])

/-- Calling the wrapped object directly, without the wrapper. -/
def directCall {σ : Type} (func : Obj σ) (args : List Value)
    (kwargs : List (String × Value)) (st : σ) : Except PyExn (Value × σ) :=
  func.impl args kwargs st

/-- `_logged.__getattr__`: delegate attribute lookup to the wrapped object.
Python only invokes `__getattr__` for names not found on the wrapper itself;
the full access protocol is modelled by `loggedGetattribute` below. -/
def loggedGetattr {σ : Type} (self : Logged σ) (n : String) : Except PyExn Value :=
  objGetattr self.fnc n

/-- Result of an attribute access on the wrapper: one of the wrapper's own
attributes (`_func`, `_repr`, the class attribute `log`) or a delegated
value from the wrapped object. -/
inductive AttrVal (σ : Type) : Type where
  | funcVal : Obj σ → AttrVal σ
  | strVal : String → AttrVal σ
  | logVal : AttrVal σ
  | val : Value → AttrVal σ

/-- Full attribute access on a `_logged` wrapper: the instance attributes
`_func` and `_repr` and the class attribute `log` are found on the wrapper
itself; every other name falls through to `__getattr__`, which delegates to
the wrapped object. -/
def loggedGetattribute {σ : Type} (self : Logged σ) (n : String) : Except PyExn (AttrVal σ) :=
  if n = "_func" then .ok (.funcVal self.fnc)
  else if n = "_repr" then .ok (.strVal self.rpr)
  else if n = "log" then .ok .logVal
  else (loggedGetattr self n).map .val

/-- `_logged.__setattr__`: every attribute assignment on the wrapper is
performed on the wrapped object. -/
def loggedSetattr {σ : Type} (self : Logged σ) (n : String) (v : Value) : Logged σ :=
  { self with fnc := objSetattr self.fnc n v }

/-- `_logged.__delattr__`: every attribute deletion on the wrapper is
performed on the wrapped object. -/
def loggedDelattr {σ : Type} (self : Logged σ) (n : String) : Except PyExn (Logged σ) :=
  (objDelattr self.fnc n).map (fun o => { self with fnc := o })

/-- `logged.__get__.__init__`: bind the wrapped object through its own
`__get__` — unless it has none, or its `__name__` is `__new__` (static-method
behaviour must be preserved for `__new__`) — then initialise as `_logged`
does, and prefix `_repr` with the `repr` of the instance when bound through
an instance, else with the `repr` of the owner class. -/
def loggedGetInit {σ : Type} (outer : Logged σ) (inst : Option Value) (owner : Value) :
    Logged σ :=
  let func := outer.fnc
  let func :=
    match func.get with
    | some g => if func.name ≠ some "__new__" then g inst owner else func
    | Option.none => func
  let self := loggedInit func
  match inst with
  | some i => { self with rpr := reprValue i ++ "." ++ self.rpr }
  | Option.none => { self with rpr := reprValue owner ++ "." ++ self.rpr }

/-- `skip`: mark an object with a `_skip_autolog` attribute so that the
`autolog` metaclass leaves it alone. -/
def skip {σ : Type} (func : Obj σ) : Obj σ :=
  objSetattr func "_skip_autolog" (Value.bool true)

/-- An entry of the class namespace after `autolog.__new__` has processed it:
either the original object unchanged, or a `logged` wrapper, or a freshly
constructed property whose present accessors are `logged` wrappers. -/
inductive Member (σ : Type) : Type where
  | obj : Obj σ → Member σ
  | wrapped : Logged σ → Member σ
  | wrappedProp : Option (Logged σ) → Option (Logged σ) → Option (Logged σ) → Member σ

/-- The value the metaclass inspects for an entry: `obj.__get__(None, cls)`
when the entry has a `__get__` method, else the entry itself. -/
def boundFor {σ : Type} (clsV : Value) (obj : Obj σ) : Obj σ :=
  match obj.get with
  | some g => g Option.none clsV
  | Option.none => obj

/-- The body of the loop in `autolog.__new__` for a single namespace entry
`(key, obj)`: skip `__repr__`; skip entries whose inspected value carries a
`_skip_autolog` attribute; wrap entries whose inspected value is callable;
rebuild properties from their wrapped accessors; leave the rest unchanged. -/
def autologStep {σ : Type} (clsV : Value) (key : String) (obj : Obj σ) : Member σ :=
  if key = "__repr__" then .obj obj
  else
    let bnd := boundFor clsV obj
    if (attrLookup bnd.attrs "_skip_autolog").isSome then .obj obj
    else if bnd.isCallable then .wrapped (loggedInit obj)
    else if obj.cls = PyClass.property then
      .wrappedProp (obj.fget.map loggedInit) (obj.fset.map loggedInit)
        (obj.fdel.map loggedInit)
    else .obj obj

/-- `autolog.__new__`: process every binding of the class namespace in
order, producing the namespace of the constructed class. -/
def autologNew {σ : Type} (clsV : Value) (dict : List (String × Obj σ)) :
    List (String × Member σ) :=
  dict.map (fun kv => (kv.1, autologStep clsV kv.1 kv.2))

/-- Looking up an attribute right after setting it yields the new value. -/
theorem attrLookup_attrSet (a : List (String × Value)) (n : String) (v : Value) :
    attrLookup (attrSet a n v) n = some v := by
  induction a with
  | nil => simp [attrSet, attrLookup]
  | cons kv rest ih =>
      by_cases h : kv.1 = n <;>
        simp [attrSet, attrLookup, h, ih]

/-- A concrete named function object: increments an integer argument. -/
def addoneFn : Obj Unit :=
  .mk true PyClass.function (some "addone") "<function addone at 0x1>" []
    Option.none Option.none Option.none Option.none
    (fun args _ st =>
      match args with
      | [Value.int n] => .ok (Value.int (n + 1), st)
      | _ => .error (.typeError "addone"))

/-- A concrete unnamed (lambda) function object. -/
def lamFn : Obj Unit :=
  .mk true PyClass.function (some "<lambda>") "<function <lambda> at 0x2>" []
    Option.none Option.none Option.none Option.none
    (fun _ _ st => .ok (Value.none, st))

/-- A concrete function object that always raises. -/
def failFn : Obj Unit :=
  .mk true PyClass.function (some "boom") "<function boom at 0x3>" []
    Option.none Option.none Option.none Option.none
    (fun _ _ _ => .error (.raised (Value.str "bad")))

/-- C1.  For every wrapped callable and every invocation of the wrapper on
positional and keyword arguments from which the callable returns normally,
`_logged.__call__` first appends the `[call]` record with the callable's
display name and the representations of all arguments, then invokes the
callable on the same arguments and state, then appends the `[exit]` record
with the same display name and arguments and the representation of the
return value, and returns that return value. -/
theorem loggedCall_logs_entry_and_exit {σ : Type} (f : Obj σ) (args : List Value)
    (kwargs : List (String × Value)) (log : List String) (st : σ) (v : Value) (st2 : σ)
    (h : f.impl args kwargs st = .ok (v, st2)) :
    loggedCall (loggedInit f) args kwargs log st =
      (.ok (v, st2),
        log ++ [callLine (loggedInit f).rpr args kwargs,
                exitLine (loggedInit f).rpr args kwargs v]) := by
  simp [loggedCall, loggedInit, h]

/-- Witness for C1: invoking the wrapped `addone` on `2` returns `3` and
writes exactly the entry and exit records. -/
theorem loggedCall_logs_entry_and_exit_witness :
    loggedCall (loggedInit addoneFn) [Value.int 2] [] [] () =
      (.ok (Value.int 3, ()),
        ["[call] addone(2)\n", "[exit] addone(2) = 3\n"]) := by
  have h := loggedCall_logs_entry_and_exit addoneFn [Value.int 2] [] [] ()
    (Value.int 3) () rfl
  exact h.trans (by rfl)

/-- C2.  On arguments where the wrapped callable returns normally, calling
the wrapper gives exactly the same outcome — return value and final state —
as calling the callable directly; only the log differs. -/
theorem loggedCall_transparent {σ : Type} (f : Obj σ) (args : List Value)
    (kwargs : List (String × Value)) (log : List String) (st : σ) (v : Value) (st2 : σ)
    (h : directCall f args kwargs st = .ok (v, st2)) :
    (loggedCall (loggedInit f) args kwargs log st).1 = directCall f args kwargs st := by
  simp [loggedCall, loggedInit, directCall] at h ⊢
  simp [h]

/-- Witness for C2: the wrapped `addone` on `2` has the same outcome as the
direct call. -/
theorem loggedCall_transparent_witness :
    (loggedCall (loggedInit addoneFn) [Value.int 2] [] [] ()).1 =
      directCall addoneFn [Value.int 2] [] () :=
  loggedCall_transparent addoneFn [Value.int 2] [] [] () (Value.int 3) () rfl

/-- C6.  When the wrapped callable raises, the wrapper propagates the same
exception unchanged; the `[call]` record has been written and no `[exit]`
record is written. -/
theorem loggedCall_propagates_exception {σ : Type} (f : Obj σ) (args : List Value)
    (kwargs : List (String × Value)) (log : List String) (st : σ) (e : PyExn)
    (h : f.impl args kwargs st = .error e) :
    loggedCall (loggedInit f) args kwargs log st =
      (.error e, log ++ [callLine (loggedInit f).rpr args kwargs]) := by
  simp [loggedCall, loggedInit, h]

/-- Witness for C6: the wrapped raising function propagates its exception
after writing only the entry record. -/
theorem loggedCall_propagates_exception_witness :
    loggedCall (loggedInit failFn) [] [] [] () =
      (.error (.raised (Value.str "bad")), ["[call] boom()\n"]) := by
  have h := loggedCall_propagates_exception failFn [] [] [] ()
    (.raised (Value.str "bad")) rfl
  exact h.trans (by rfl)

/-- C4.  For every attribute name that is not one of the wrapper's own
(`_func`, `_repr`, and the class attribute `log`), attribute access on the
wrapper returns the attribute of the wrapped object, attribute assignment
sets it on the wrapped object (leaving the stored display name untouched),
and attribute deletion deletes it from the wrapped object. -/
theorem logged_delegates_attributes {σ : Type} (self : Logged σ) (n : String) (v : Value)
    (h1 : n ≠ "_func") (h2 : n ≠ "_repr") (h3 : n ≠ "log") :
    loggedGetattribute self n = (objGetattr self.fnc n).map AttrVal.val ∧
    (loggedSetattr self n v).fnc = objSetattr self.fnc n v ∧
    (loggedSetattr self n v).rpr = self.rpr ∧
    loggedDelattr self n = (objDelattr self.fnc n).map (fun o => ⟨o, self.rpr⟩) := by
  refine ⟨?_, rfl, rfl, rfl⟩
  simp [loggedGetattribute, loggedGetattr, h1, h2, h3]

/-- Witness for C4: on a wrapped object carrying a `flag` attribute, access
reads through, assignment writes through, and deletion deletes through. -/
theorem logged_delegates_attributes_witness :
    loggedGetattribute (loggedInit addoneFn) "flag" =
      (objGetattr addoneFn "flag").map AttrVal.val ∧
    (loggedSetattr (loggedInit addoneFn) "flag" (Value.int 7)).fnc =
      objSetattr addoneFn "flag" (Value.int 7) ∧
    (loggedSetattr (loggedInit addoneFn) "flag" (Value.int 7)).rpr =
      (loggedInit addoneFn).rpr ∧
    loggedDelattr (loggedInit addoneFn) "flag" =
      (objDelattr addoneFn "flag").map (fun o => ⟨o, (loggedInit addoneFn).rpr⟩) :=
  logged_delegates_attributes (loggedInit addoneFn) "flag" (Value.int 7)
    (by decide) (by decide) (by decide)

/-- C8.  The display name stored by `_logged.__init__` is the callable's
`__name__` whenever it has one different from the lambda name, and
otherwise — for lambdas and for callables without a `__name__` — its
`repr`. -/
theorem loggedInit_display_name {σ : Type} (f : Obj σ) :
    (∀ n, f.name = some n → n ≠ "<lambda>" → (loggedInit f).rpr = n) ∧
    (f.name = some "<lambda>" → (loggedInit f).rpr = f.rep) ∧
    (f.name = Option.none → (loggedInit f).rpr = f.rep) := by
  refine ⟨fun n hn hne => ?_, fun hl => ?_, fun hn => ?_⟩ <;>
    simp [loggedInit, *]

/-- Witness for C8: `addone` is displayed by its name, a lambda by its
`repr`. -/
theorem loggedInit_display_name_witness :
    (loggedInit addoneFn).rpr = "addone" ∧
    (loggedInit lamFn).rpr = "<function <lambda> at 0x2>" :=
  ⟨(loggedInit_display_name addoneFn).1 "addone" rfl (by decide),
   (loggedInit_display_name lamFn).2.1 rfl⟩

/-- `_logged.__init__` stores the wrapped object itself as `_func`. -/
@[simp] theorem loggedInit_fnc {σ : Type} (f : Obj σ) : (loggedInit f).fnc = f := rfl

/-- A concrete bound-method object produced by binding `show`. -/
def mkBound (inst : Option Value) (owner : Value) : Obj Unit :=
  .mk true PyClass.other (some "show")
    ("<bound method show of " ++
      (match inst with
       | some i => reprValue i
       | Option.none => reprValue owner) ++ ">")
    [] Option.none Option.none Option.none Option.none
    (fun _ _ st => .ok (Value.none, st))

/-- A concrete method-like function object whose `__get__` yields `mkBound`. -/
def showFn : Obj Unit :=
  .mk true PyClass.function (some "show") "<function show at 0x5>" []
    (some mkBound) Option.none Option.none Option.none
    (fun _ _ st => .ok (Value.none, st))

/-- A concrete `__new__` function object with a `__get__` method. -/
def newFn : Obj Unit :=
  .mk true PyClass.function (some "__new__") "<function __new__ at 0x6>" []
    (some mkBound) Option.none Option.none Option.none
    (fun _ _ st => .ok (Value.obj "<Milanese object at 0x7>", st))

/-- C5, counterexample.  A wrapped function named `__new__` that does have
a `__get__` method is not bound through it when accessed as a member:
`_func` stays the raw function instead of the bound object, refuting the
claim that every wrapped member object is bound via the underlying
object's own `__get__`. -/
theorem loggedGet_binds_counterexample :
    (loggedInit newFn).fnc.get = some mkBound ∧
    (loggedGetInit (loggedInit newFn) Option.none (Value.obj "<class Milanese>")).fnc ≠
      mkBound Option.none (Value.obj "<class Milanese>") := by
  refine ⟨rfl, fun h => ?_⟩
  rw [show (loggedGetInit (loggedInit newFn) Option.none
      (Value.obj "<class Milanese>")).fnc = newFn from rfl] at h
  exact absurd (congrArg Obj.name h) (by decide)

/-- C5 (amended).  When a wrapped object with a `__get__` method, other
than one whose `__name__` is `__new__`, is accessed as a class or instance
member, `logged.__get__.__init__` stores as `_func` the object bound
through that `__get__`, and the display name is the bound object's display
name prefixed with the `repr` of the instance when the access goes through
an instance, else with the `repr` of the owner class. -/
theorem loggedGet_binds_and_prefixes {σ : Type} (outer : Logged σ) (inst : Option Value)
    (owner : Value) (g : Option Value → Value → Obj σ)
    (hg : outer.fnc.get = some g) (hn : outer.fnc.name ≠ some "__new__") :
    (loggedGetInit outer inst owner).fnc = g inst owner ∧
    (loggedGetInit outer inst owner).rpr =
      (match inst with
       | some i => reprValue i
       | Option.none => reprValue owner) ++ "." ++ (loggedInit (g inst owner)).rpr := by
  cases inst <;> simp [loggedGetInit, hg, hn]

/-- Witness for C5: accessing the wrapped `show` through an instance binds
it and prefixes the instance `repr`; the outcome is the bound method and the
dotted display name. -/
theorem loggedGet_binds_and_prefixes_witness :
    (loggedGetInit (loggedInit showFn) (some (Value.obj "<Torinese object at 0x4>"))
        (Value.obj "<class Torinese>")).fnc =
      mkBound (some (Value.obj "<Torinese object at 0x4>")) (Value.obj "<class Torinese>") ∧
    (loggedGetInit (loggedInit showFn) (some (Value.obj "<Torinese object at 0x4>"))
        (Value.obj "<class Torinese>")).rpr = "<Torinese object at 0x4>.show" := by
  have h := loggedGet_binds_and_prefixes (loggedInit showFn)
    (some (Value.obj "<Torinese object at 0x4>")) (Value.obj "<class Torinese>")
    mkBound rfl (by decide)
  exact ⟨h.1, h.2.trans (by rfl)⟩

/-- C9.  `logged.__get__.__init__` leaves the wrapped object unbound — it
wraps the raw function unchanged, preserving static-method behaviour — when
the object's `__name__` is `__new__`, and likewise when the object has no
`__get__` method; binding happens only outside these two cases. -/
theorem loggedGet_preserves_new {σ : Type} (outer : Logged σ) (inst : Option Value)
    (owner : Value)
    (h : outer.fnc.name = some "__new__" ∨ outer.fnc.get = Option.none) :
    (loggedGetInit outer inst owner).fnc = outer.fnc := by
  rcases h with h | h
  · cases hg : outer.fnc.get with
    | none => cases inst <;> simp [loggedGetInit, hg]
    | some g => cases inst <;> simp [loggedGetInit, hg, h]
  · cases inst <;> simp [loggedGetInit, h]

/-- Witness for C9: the wrapped `__new__` accessed through its class is not
bound through `__get__`. -/
theorem loggedGet_preserves_new_witness :
    (loggedGetInit (loggedInit newFn) Option.none (Value.obj "<class Milanese>")).fnc =
      newFn :=
  loggedGet_preserves_new (loggedInit newFn) Option.none (Value.obj "<class Milanese>")
    (Or.inl rfl)

/-- Replacing the attribute dictionary indeed installs the new dictionary. -/
@[simp] theorem Obj.attrs_withAttrs {σ : Type} (o : Obj σ) (a : List (String × Value)) :
    (o.withAttrs a).attrs = a := by
  cases o; rfl

/-- A concrete named method in a class namespace. -/
def talkFn : Obj Unit :=
  .mk true PyClass.function (some "talk") "<function talk at 0x8>" []
    Option.none Option.none Option.none Option.none
    (fun _ _ st => .ok (Value.none, st))

/-- The method `talk`, marked with `skip`. -/
def skippedTalk : Obj Unit := skip talkFn

/-- C3, counterexample.  A callable class-namespace entry named `talk` —
not `__repr__` — that carries the `_skip_autolog` mark is left unchanged by
`autolog.__new__` instead of being replaced by a logged wrapper, refuting
the claim that every callable entry other than `__repr__` is replaced. -/
theorem autologNew_wraps_callables_counterexample :
    skippedTalk.isCallable = true ∧ ("talk" : String) ≠ "__repr__" ∧
    autologNew (Value.obj "<class autolog>") [("talk", skippedTalk)] =
      [("talk", Member.obj skippedTalk)] ∧
    autologNew (Value.obj "<class autolog>") [("talk", skippedTalk)] ≠
      [("talk", Member.wrapped (loggedInit skippedTalk))] := by
  refine ⟨rfl, by decide, rfl, ?_⟩
  intro h
  rw [show autologNew (Value.obj "<class autolog>") [("talk", skippedTalk)] =
      [("talk", Member.obj skippedTalk)] from rfl] at h
  simp at h

/-- C3 (amended).  `autolog.__new__` iterates the class's namespace
bindings, keeping every key, and replaces every entry that is callable — an
entry without a `__get__` method is judged directly, one with a `__get__`
method through its value bound via `__get__(None, metaclass)` — or a
property, and that does not carry a `_skip_autolog` attribute, with a
wrapped version: callables become logged wrappers, properties are rebuilt
from their wrapped accessors; the entry named `__repr__` is skipped. -/
theorem autologNew_wraps_callables {σ : Type} (clsV : Value)
    (dict : List (String × Obj σ)) :
    (autologNew clsV dict).length = dict.length ∧
    ∀ (i : Nat) (k : String) (obj : Obj σ), dict[i]? = some (k, obj) →
      (k = "__repr__" → (autologNew clsV dict)[i]? = some (k, Member.obj obj)) ∧
      (k ≠ "__repr__" →
        attrLookup (boundFor clsV obj).attrs "_skip_autolog" = Option.none →
        ((obj.get = Option.none → obj.isCallable = true →
            (autologNew clsV dict)[i]? = some (k, Member.wrapped (loggedInit obj))) ∧
         ((boundFor clsV obj).isCallable = true →
            (autologNew clsV dict)[i]? = some (k, Member.wrapped (loggedInit obj))) ∧
         ((boundFor clsV obj).isCallable = false → obj.cls = PyClass.property →
            (autologNew clsV dict)[i]? =
              some (k, Member.wrappedProp (obj.fget.map loggedInit)
                (obj.fset.map loggedInit) (obj.fdel.map loggedInit))))) := by
  refine ⟨List.length_map _ _, fun i k obj h =>
    ⟨fun hk => ?_, fun hk hskip => ⟨fun hg hc => ?_, fun hc => ?_, fun hnc hp => ?_⟩⟩⟩
  · rw [autologNew, List.getElem?_map, h]
    simp [autologStep, hk]
  · rw [autologNew, List.getElem?_map, h]
    simp [boundFor, hg] at hskip
    simp [autologStep, boundFor, hg, hk, hskip, hc]
  · rw [autologNew, List.getElem?_map, h]
    simp [autologStep, hk, hskip, hc]
  · rw [autologNew, List.getElem?_map, h]
    simp [autologStep, hk, hskip, hnc, hp]

/-- A concrete property getter. -/
def getterFn : Obj Unit :=
  .mk true PyClass.function (some "getThought") "<function getThought at 0x9>" []
    Option.none Option.none Option.none Option.none
    (fun _ _ st => .ok (Value.str "Coffee...", st))

/-- A concrete property setter. -/
def setterFn : Obj Unit :=
  .mk true PyClass.function (some "setThought") "<function setThought at 0xa>" []
    Option.none Option.none Option.none Option.none
    (fun _ _ st => .ok (Value.none, st))

/-- What binding the property through `__get__(None, cls)` yields: a
non-callable, unmarked property view. -/
def propBound : Obj Unit :=
  .mk false PyClass.property Option.none "<property object at 0xb>" []
    Option.none Option.none Option.none Option.none
    (fun _ _ _ => .error (.typeError "property object is not callable"))

/-- A concrete property with a getter and a setter and no deleter. -/
def thoughtProp : Obj Unit :=
  .mk false PyClass.property Option.none "<property object at 0xb>" []
    (some (fun _ _ => propBound)) (some getterFn) (some setterFn) Option.none
    (fun _ _ _ => .error (.typeError "property object is not callable"))

/-- Witness for C3 (amended): a namespace holding the unmarked callable
`talk` and the property `thought` comes back with the same keys, `talk`
as a logged wrapper and `thought` rebuilt from its wrapped accessors. -/
theorem autologNew_wraps_callables_witness :
    (autologNew (Value.obj "<class autolog>")
      [("talk", talkFn), ("thought", thoughtProp)]).length = 2 ∧
    (autologNew (Value.obj "<class autolog>")
      [("talk", talkFn), ("thought", thoughtProp)])[0]? =
      some ("talk", Member.wrapped (loggedInit talkFn)) ∧
    (autologNew (Value.obj "<class autolog>")
      [("talk", talkFn), ("thought", thoughtProp)])[1]? =
      some ("thought", Member.wrappedProp (some (loggedInit getterFn))
        (some (loggedInit setterFn)) Option.none) := by
  have h := autologNew_wraps_callables (Value.obj "<class autolog>")
    [("talk", talkFn), ("thought", thoughtProp)]
  refine ⟨h.1, ?_, ?_⟩
  · exact ((h.2 0 "talk" talkFn rfl).2 (by decide) rfl).1 rfl rfl
  · exact ((h.2 1 "thought" thoughtProp rfl).2 (by decide) rfl).2.2 rfl rfl

/-- C7.  When `autolog.__new__` reaches an entry that is a `property` (not
named `__repr__`, not skip-marked, and whose inspected value is not
callable), it replaces it by a newly constructed property whose `fget`,
`fset` and `fdel` fields are the logged wrappers of the original accessors,
each field populated exactly when the original accessor is present; the
original property object is not mutated. -/
theorem autologStep_rebuilds_property {σ : Type} (clsV : Value) (key : String)
    (obj : Obj σ) (hk : key ≠ "__repr__")
    (hskip : attrLookup (boundFor clsV obj).attrs "_skip_autolog" = Option.none)
    (hnc : (boundFor clsV obj).isCallable = false)
    (hp : obj.cls = PyClass.property) :
    autologStep clsV key obj =
      Member.wrappedProp (obj.fget.map loggedInit) (obj.fset.map loggedInit)
        (obj.fdel.map loggedInit) := by
  simp [autologStep, hk, hskip, hnc, hp]

/-- Witness for C7: a property with getter and setter and no deleter is
rebuilt with both present accessors wrapped and the deleter still absent. -/
theorem autologStep_rebuilds_property_witness :
    autologStep (Value.obj "<class autolog>") "thought" thoughtProp =
      Member.wrappedProp (some (loggedInit getterFn)) (some (loggedInit setterFn))
        Option.none :=
  autologStep_rebuilds_property (Value.obj "<class autolog>") "thought" thoughtProp
    (by decide) rfl rfl rfl

/-- C10.  Every namespace entry whose inspected value carries a
`_skip_autolog` attribute — the mark installed by `skip` — is left
completely unchanged by `autolog.__new__`: neither wrapped nor rebuilt,
whatever key it has and whether or not it is callable or a property. -/
theorem autologStep_skips_marked {σ : Type} (clsV : Value) (key : String) (obj : Obj σ)
    (h : (attrLookup (boundFor clsV obj).attrs "_skip_autolog").isSome = true) :
    autologStep clsV key obj = Member.obj obj ∧
    ∀ (f : Obj σ), attrLookup (skip f).attrs "_skip_autolog" = some (Value.bool true) := by
  constructor
  · by_cases hk : key = "__repr__" <;> simp [autologStep, hk, h]
  · intro f
    simp [skip, objSetattr]
    exact attrLookup_attrSet f.attrs _ _

/-- Witness for C10: the skip-marked `talk` survives `autolog.__new__`
untouched. -/
theorem autologStep_skips_marked_witness :
    autologStep (Value.obj "<class autolog>") "talk" skippedTalk =
      Member.obj skippedTalk :=
  (autologStep_skips_marked (Value.obj "<class autolog>") "talk" skippedTalk rfl).1
